import Mathlib

/-!
Shallow embedding of the context-assembly pipeline of the ChatBot repository
(src/main.py, src/core/conversation_manager.py, src/core/summarizer.py,
src/core/llm.py, src/config/settings.py, src/core/vector_store.py).

Remote collaborators (the generation endpoint, the vector index, the hash
function used for cache keys) are passed in as explicit parameters; fallible
steps are modelled with `Except` or an explicit failure parameter mirroring
the try/except structure of the Python source.
-/

namespace ChatBot

/-- Application settings (src/config/settings.py, dataclass `Settings`);
only the fields the core pipeline reads are modelled. Temperatures are
exact rationals standing for the Python floats 0.7 and 0.3. -/
structure Settings where
  MODEL_NAME : String := "nvidia/llama-3.1-nemotron-70b-instruct"
  MAX_TOKENS : Nat := 1024
  TEMPERATURE : Rat := 7/10
  SUMMARY_TEMPERATURE : Rat := 3/10
  STREAM_ENABLED : Bool := true
  MAX_CACHE_ITEMS : Nat := 1000
  CACHE_CLEANUP_THRESHOLD : Nat := 500

/-- The default settings instance (`Settings()` in the source). -/
def defaultSettings : Settings := {}

/-- One retrieval result as consumed in src/main.py line 103:
`r[0].get('text', '')` reads an optional `text` field of the metadata
dict; the relevance score is opaque to the pipeline. -/
structure RetrievalResult where
  text : Option String
  score : Int
deriving DecidableEq

/-- `r[0].get('text', '')`: the passage text with `""` as default. -/
def RetrievalResult.getText (r : RetrievalResult) : String :=
  r.text.getD ""

/-- One persisted history entry as built by `ConversationManager.add_message`
(src/core/conversation_manager.py lines 43-47): the user message, the
generated response, and the context metadata dict
`{"search_results": ..., "summary_used": ...}`. -/
structure StoredMessage where
  message : String
  response : String
  search_results : List RetrievalResult
  summary_used : Bool
deriving DecidableEq

/-- The value returned by `ConversationManager.get_context`:
a dict with keys `summary` and `recent_messages`. -/
structure ConversationContext where
  summary : String
  recent_messages : List StoredMessage
deriving DecidableEq

/-- The inline summary string built by `get_context`
(src/core/conversation_manager.py lines 27-28): an f-string with the
history length, then the last two messages truncated to 30 characters,
each with `"..."` appended, joined by `", "`.  Python `history[-2:]` is
`drop (length - 2)`. -/
def inlineSummary (history : List StoredMessage) : String :=
  "Previous conversation included " ++ toString history.length ++
    " messages about: " ++
    String.intercalate ", "
      ((history.drop (history.length - 2)).map
        (fun msg => msg.message.take 30 ++ "..."))

/-- `ConversationManager.get_context` (src/core/conversation_manager.py
lines 13-36).  The whole body is wrapped in try/except returning the empty
context on any error; the fetch of the per-user history is the fallible
step, modelled by the `Except` argument.  On a non-empty history it
returns the last three entries (`history[-3:]`, i.e. `drop (length - 3)`)
and the inline summary. -/
def get_context (fetched : Except String (List StoredMessage)) :
    ConversationContext :=
  match fetched with
  | .error _ => { summary := "", recent_messages := [] }
  | .ok history =>
    if history.isEmpty then
      { summary := "", recent_messages := [] }
    else
      { summary := inlineSummary history
        recent_messages := history.drop (history.length - 3) }

/-- `ConversationManager.add_message` (src/core/conversation_manager.py
lines 38-55), success path of the body: append the new entry, then if the
list exceeds 100 entries keep only the last 100 (`history[-100:]`). -/
def add_message (history : List StoredMessage) (entry : StoredMessage) :
    List StoredMessage :=
  let h := history ++ [entry]
  if h.length > 100 then h.drop (h.length - 100) else h

/-- `add_message` including its internal try/except: any error raised in the
body is caught and logged, the call returns normally and (as modelled) the
history is left as it was.  The failure argument is `some e` when the body
raised `e`. -/
def add_message_guarded (failure : Option String)
    (history : List StoredMessage) (entry : StoredMessage) :
    List StoredMessage :=
  match failure with
  | some _ => history
  | none => add_message history entry

/-- The fixed apologetic response string
(src/core/llm.py line 93 and src/main.py line 138). -/
def apology : String :=
  "I apologize, but I encountered an error processing your request."

/-- The message of the RuntimeError raised by `generate_response` before
initialization (src/core/llm.py line 56). -/
def notInitializedMsg : String :=
  "LLM Manager not initialized. Call initialize() first."

/-- A decoded JSON value, the possible results of `json.loads` on one
line of the response stream (src/core/llm.py line 83). -/
inductive Json where
  | null
  | bool (b : Bool)
  | num (n : Int)
  | str (s : String)
  | arr (elems : List Json)
  | obj (fields : List (String × Json))

/-- Python `value.get(key, default)`: the field of a dict (the default
when the key is absent), and an AttributeError on any non-dict value
(lists, strings, numbers, booleans and None have no `get` method). -/
def jsonGet (j : Json) (key : String) (dflt : Json) : Except String Json :=
  match j with
  | .obj fields =>
    match fields.lookup key with
    | some v => .ok v
    | none => .ok dflt
  | _ => .error "AttributeError"

/-- Python `value[0]`: the first element of a list or character of a
string (IndexError when empty), a KeyError on a dict (decoded JSON object
keys are strings, never the integer 0), and a TypeError on values that
are not subscriptable. -/
def jsonIndexZero : Json → Except String Json
  | .arr [] => .error "IndexError"
  | .arr (x :: _) => .ok x
  | .str s => if s.isEmpty then .error "IndexError" else .ok (.str (s.take 1))
  | .obj _ => .error "KeyError"
  | _ => .error "TypeError"

/-- Python truthiness of a decoded JSON value, as used by the walrus test
`if content := ...` (src/core/llm.py line 84). -/
def jsonTruthy : Json → Bool
  | .null => false
  | .bool b => b
  | .num n => n != 0
  | .str s => !s.isEmpty
  | .arr elems => !elems.isEmpty
  | .obj fields => !fields.isEmpty

/-- The content extraction of src/core/llm.py lines 84-85:
`json_response.get("choices", [{}])[0].get("delta", {}).get("content")`,
the walrus truthiness test, and `response_text += content`.
`.ok (some s)` means the string `s` is appended, `.ok none` means the
falsy content is skipped, and `.error e` means the chain raised an
exception other than `JSONDecodeError` (so the inner handler does not
catch it): an AttributeError from `.get` on a non-dict, an IndexError or
KeyError or TypeError from `[0]`, or a TypeError from appending a truthy
non-string content. -/
def extractDeltaContent (j : Json) : Except String (Option String) := do
  let choices ← jsonGet j "choices" (.arr [.obj []])
  let first ← jsonIndexZero choices
  let delta ← jsonGet first "delta" (.obj [])
  let content ← jsonGet delta "content" .null
  if jsonTruthy content then
    match content with
    | .str s => pure (some s)
    | _ => .error "TypeError"
  else
    pure none

/-- One line of the streamed response body (src/core/llm.py lines 81-89):
a falsy line skipped by `if line:`, a line on which `json.loads` raises
`JSONDecodeError` (caught by the inner handler, which continues), or a
line decoding to a JSON value that then goes through content
extraction. -/
inductive StreamLine where
  | empty
  | undecodable
  | decoded (j : Json)

/-- The `async for` accumulation loop of src/core/llm.py lines 80-89:
empty and undecodable lines are skipped and the loop continues; a decoded
line either contributes its truthy string content, is skipped when the
content is falsy, or — when the extraction raises — aborts the whole loop
with that exception, since only `json.JSONDecodeError` is caught
inside. -/
def runStream : List StreamLine → String → Except String String
  | [], acc => .ok acc
  | .empty :: rest, acc => runStream rest acc
  | .undecodable :: rest, acc => runStream rest acc
  | .decoded j :: rest, acc =>
    match extractDeltaContent j with
    | .error e => .error e
    | .ok none => runStream rest acc
    | .ok (some c) => runStream rest (acc ++ c)

/-- The remote endpoint's reply to the one streaming POST issued by
`generate_response`: a success flag (`response.ok`) and the stream of
lines of the body. -/
structure HttpResponse where
  ok : Bool
  lines : List StreamLine

/-- Outcome of `generate_response`: the returned value or propagated
exception, plus whether the network request was issued at all. -/
structure GenOutcome where
  result : Except String String
  networkCalled : Bool

/-- `LLMManager.generate_response` (src/core/llm.py lines 53-93).  Before
initialization it raises RuntimeError (line 56) outside the try block, so
the error propagates and no request is sent.  Otherwise one streaming POST
is issued; a non-success status raises inside the try block and the outer
handler returns the fixed apology string; on success the stream is
accumulated line by line, and an extraction exception escaping the inner
handler likewise reaches the outer handler, which discards the
accumulated text and returns the apology. -/
def generate_response (initialized : Bool) (resp : HttpResponse) :
    GenOutcome :=
  if initialized = false then
    { result := .error notInitializedMsg, networkCalled := false }
  else if resp.ok = false then
    { result := .ok apology, networkCalled := true }
  else
    match runStream resp.lines "" with
    | .ok text => { result := .ok text, networkCalled := true }
    | .error _ => { result := .ok apology, networkCalled := true }

/-- The string a successful-status `generate_response` call returns: the
accumulated stream text, or the apology when the loop aborted on an
extraction exception. -/
def streamResponseText (ls : List StreamLine) : String :=
  match runStream ls "" with
  | .ok text => text
  | .error _ => apology

/-- The in-memory summary cache of `ConversationSummarizer`
(src/core/summarizer.py): a Python dict from integer cache keys
(`hash(str(messages))`) to summary strings, modelled as an insertion-order
association list with pairwise distinct keys. -/
abbrev Cache := List (Int × String)

/-- Dict assignment `self._summary_cache[key] = summary`: replace in place
when the key is present, append otherwise. -/
def cacheAssign (k : Int) (v : String) (c : Cache) : Cache :=
  if (List.map Prod.fst c).contains k then
    List.map (fun p => if p.1 = k then (k, v) else p) c
  else
    c ++ [(k, v)]

/-- `ConversationSummarizer._update_cache` (src/core/summarizer.py lines
31-40): store the new entry; then, if the cache holds more than
`MAX_CACHE_ITEMS` entries, compute `sorted(keys)[:-CACHE_CLEANUP_THRESHOLD]`
(all but the threshold largest keys, in sorted order) and delete those
entries. -/
def _update_cache (s : Settings) (k : Int) (v : String) (c : Cache) :
    Cache :=
  let c1 := cacheAssign k v c
  if List.length c1 > s.MAX_CACHE_ITEMS then
    let sortedKeys := (List.map Prod.fst c1).mergeSort
    let oldKeys := sortedKeys.take
      (sortedKeys.length - s.CACHE_CLEANUP_THRESHOLD)
    List.filter (fun p => !(oldKeys.contains p.1)) c1
  else
    c1

/-- `ConversationSummarizer._format_conversation` (src/core/summarizer.py
lines 79-88): each history entry contributes a `"User: ..."` and an
`"Assistant: ..."` line (every modelled entry has both keys), all joined
with newlines. -/
def _format_conversation (msgs : List StoredMessage) : String :=
  String.intercalate "\n"
    (msgs.flatMap
      (fun m => ["User: " ++ m.message, "Assistant: " ++ m.response]))

/-- The payload of the one summarization POST issued by
`ConversationSummarizer._generate_summary` (src/core/summarizer.py lines
46-62): the summarization-specific system instruction, the formatted
conversation as user content, the summary temperature and a 200-token
ceiling. -/
structure SummaryRequest where
  model : String
  systemInstruction : String
  userContent : String
  temperature : Rat
  max_tokens : Nat

/-- The payload `_generate_summary` builds for a given history. -/
def summaryRequest (s : Settings) (msgs : List StoredMessage) :
    SummaryRequest :=
  { model := s.MODEL_NAME
    systemInstruction :=
      "Create a brief, focused summary of the key points in this conversation."
    userContent := _format_conversation msgs
    temperature := s.SUMMARY_TEMPERATURE
    max_tokens := 200 }

/-- `ConversationSummarizer._generate_summary` (src/core/summarizer.py
lines 42-77): issue the request to the remote endpoint (modelled by the
`remote` oracle); any error is caught and replaced with the fixed fallback
string. -/
def _generate_summary (remote : SummaryRequest → Except String String)
    (s : Settings) (msgs : List StoredMessage) : String :=
  match remote (summaryRequest s msgs) with
  | .ok content => content
  | .error _ => "Error generating conversation summary."

/-- `ConversationSummarizer.get_summary` (src/core/summarizer.py lines
13-25): compute the cache key (`hash(str(messages))`, modelled by the
`keyFn` oracle); under the cache lock, return the cached summary when the
key is present, otherwise generate a new summary remotely and store it via
`_update_cache`.  Returns the summary together with the updated cache. -/
def get_summary (remote : SummaryRequest → Except String String)
    (keyFn : List StoredMessage → Int) (s : Settings) (cache : Cache)
    (msgs : List StoredMessage) : String × Cache :=
  let key := keyFn msgs
  match List.lookup key cache with
  | some cached => (cached, cache)
  | none =>
    let summary := _generate_summary remote s msgs
    (summary, _update_cache s key summary cache)

/-- A role/content message of the prompt sent to the generation endpoint. -/
structure PromptMessage where
  role : String
  content : String
deriving DecidableEq

/-- The system message content of src/main.py lines 101-103: the f-string
embedding the rolling summary and the space-join of the retrieved passage
texts (whitespace exactly as in the triple-quoted literal). -/
def systemContent (summary : String) (results : List RetrievalResult) :
    String :=
  "You are a helpful assistant. \n                    Previous conversation summary: "
    ++ summary
    ++ "\n                    Relevant context: "
    ++ String.intercalate " " (results.map RetrievalResult.getText)

/-- The prompt assembly of src/main.py lines 97-113: one system message,
then (when the recent-messages list is non-empty — the `if` guard, which
for a list is exactly non-emptiness) a user/assistant pair per recent
entry in order, then the new user message. -/
def buildMessages (summary : String) (recent : List StoredMessage)
    (results : List RetrievalResult) (message : String) :
    List PromptMessage :=
  let base := [PromptMessage.mk "system" (systemContent summary results)]
  let withHistory :=
    if recent.isEmpty then base
    else base ++ recent.flatMap
      (fun m => [PromptMessage.mk "user" m.message,
                 PromptMessage.mk "assistant" m.response])
  withHistory ++ [PromptMessage.mk "user" message]

/-- The environment a single `process_message` call runs against: whether
`LLMManager.initialize` has completed, the generation endpoint's reply,
the outcome of `self.vector_store.similarity_search(message)` (an
`AttributeError` in the unmodified repository, since `VectorStore` defines
no such method), and whether the persistence body raises. -/
structure OrchestratorEnv where
  llmInitialized : Bool
  genHttp : HttpResponse
  searchOutcome : Except String (List RetrievalResult)
  persistFailure : Option String

/-- Outcome of `EnhancedChatbot.process_message`: the returned string or
propagated exception, the per-user history after the call, and the prompt
handed to `generate_response` (`none` when the pipeline failed before
generation). -/
structure ProcessOutcome where
  result : Except String String
  newHistory : List StoredMessage
  sentMessages : Option (List PromptMessage)

/-- `EnhancedChatbot.process_message` (src/main.py lines 80-138).  Before
initialization it raises RuntimeError (line 83) outside the try block.
Inside the try block: gather context and similarity search (a failure of
either is caught by the handler at line 136, which returns the apology
string); assemble the prompt; call `generate_response` (whose own
RuntimeError, when the LLM manager is uninitialized, is likewise caught
and turned into the apology); persist via `add_message`, whose internal
try/except contains any persistence error; return the generated
response. -/
def process_message (chatbotInitialized : Bool) (env : OrchestratorEnv)
    (history : List StoredMessage) (message : String) : ProcessOutcome :=
  if chatbotInitialized = false then
    { result := .error "Chatbot not initialized. Call initialize() first."
      newHistory := history
      sentMessages := none }
  else
    match env.searchOutcome with
    | .error _ =>
      { result := .ok apology, newHistory := history, sentMessages := none }
    | .ok search_results =>
      let context := get_context (.ok history)
      let messages := buildMessages context.summary context.recent_messages
        search_results message
      match (generate_response env.llmInitialized env.genHttp).result with
      | .error _ =>
        { result := .ok apology
          newHistory := history
          sentMessages := some messages }
      | .ok response =>
        let entry : StoredMessage :=
          { message := message
            response := response
            search_results := search_results
            summary_used := context.summary != "" }
        { result := .ok response
          newHistory := add_message_guarded env.persistFailure history entry
          sentMessages := some messages }

/-- The methods the `VectorStore` class defines
(src/core/vector_store.py): only a constructor and `initialize`. -/
def vectorStoreMethods : List String := ["__init__", "initialize"]

/-- C5: `get_context` returns the empty context (`summary = ""`,
`recent_messages = []`) when the fetched history is empty or the fetch
fails, without raising; and for every history the recent turns are the
last `min(n, 3)` entries in chronological order (a suffix of the history
of that length). -/
theorem c5_context_empty_and_recent_window :
    (∀ e : String,
      get_context (.error e) = { summary := "", recent_messages := [] }) ∧
    get_context (.ok []) = { summary := "", recent_messages := [] } ∧
    ∀ history : List StoredMessage,
      (get_context (.ok history)).recent_messages.length =
        min history.length 3 ∧
      (get_context (.ok history)).recent_messages <:+ history := by
  refine ⟨fun e => rfl, rfl, fun history => ?_⟩
  cases history with
  | nil => exact ⟨rfl, List.nil_suffix⟩
  | cons a t =>
    constructor
    · simp [get_context, List.length_drop]
      omega
    · simp only [get_context, List.isEmpty_cons, Bool.false_eq_true,
        if_false]
      exact List.drop_suffix _ _

/-- C9: calling `generate_response` before `initialize` has completed
propagates the distinct "not initialized" RuntimeError, issues no network
call, and its message differs from the apology string that swallowed
network errors produce. -/
theorem c9_generate_requires_initialize :
    ∀ resp : HttpResponse,
      (generate_response false resp).result = .error notInitializedMsg ∧
      (generate_response false resp).networkCalled = false ∧
      (notInitializedMsg == apology) = false := by
  intro resp
  exact ⟨rfl, rfl, by decide⟩

/-- C3: when the chatbot is initialized and the generation endpoint
replies with a non-success status, `process_message` returns exactly the
fixed apology string (as a normal return value, not a propagated error),
for every fragment stream, search result list, persistence outcome,
history and message. -/
theorem c3_nonsuccess_status_yields_apology :
    ∀ (ls : List StreamLine) (rs : List RetrievalResult)
      (pf : Option String) (history : List StoredMessage) (msg : String),
      (process_message true
        { llmInitialized := true
          genHttp := { ok := false, lines := ls }
          searchOutcome := .ok rs
          persistFailure := pf }
        history msg).result = .ok apology := by
  intro ls rs pf history msg
  rfl

/-- C8: when generation has produced a response (success status), a
failing persistence call leaves the value returned by `process_message`
unchanged: the result is the generated response, and it coincides with the
result of the same call whose persistence succeeds. -/
theorem c8_persistence_failure_keeps_response :
    ∀ (ls : List StreamLine) (rs : List RetrievalResult) (err : String)
      (history : List StoredMessage) (msg : String),
      (process_message true
        { llmInitialized := true
          genHttp := { ok := true, lines := ls }
          searchOutcome := .ok rs
          persistFailure := some err }
        history msg).result = .ok (streamResponseText ls) ∧
      (process_message true
        { llmInitialized := true
          genHttp := { ok := true, lines := ls }
          searchOutcome := .ok rs
          persistFailure := some err }
        history msg).result =
      (process_message true
        { llmInitialized := true
          genHttp := { ok := true, lines := ls }
          searchOutcome := .ok rs
          persistFailure := none }
        history msg).result := by
  intro ls rs err history msg
  have hgen : ∀ pf : Option String,
      (process_message true
        { llmInitialized := true
          genHttp := { ok := true, lines := ls }
          searchOutcome := .ok rs
          persistFailure := pf }
        history msg).result = .ok (streamResponseText ls) := by
    intro pf
    cases hrs : runStream ls "" <;>
      simp [process_message, generate_response, streamResponseText, hrs]
  exact ⟨hgen (some err), by rw [hgen (some err), hgen none]⟩

/-- C10: the in-memory per-user history is bounded: a guarded
`add_message` never grows the history beyond `max` of its current length
and 100; a successful insertion leaves exactly `min (n+1) 100` entries,
retaining a suffix (the most recent entries, oldest dropped first); and
any sequence of insertions starting from the empty history leaves at most
100 entries. -/
theorem c10_history_capped_at_100 :
    (∀ (f : Option String) (h : List StoredMessage) (e : StoredMessage),
      (add_message_guarded f h e).length ≤ max h.length 100) ∧
    (∀ (h : List StoredMessage) (e : StoredMessage),
      (add_message h e).length = min (h.length + 1) 100) ∧
    (∀ (h : List StoredMessage) (e : StoredMessage),
      add_message h e <:+ h ++ [e]) ∧
    (∀ entries : List StoredMessage,
      (entries.foldl add_message []).length ≤ 100) := by
  have hmin : ∀ (h : List StoredMessage) (e : StoredMessage),
      (add_message h e).length = min (h.length + 1) 100 := by
    intro h e
    simp only [add_message]
    split
    · rename_i hc
      simp only [List.length_drop, List.length_append,
        List.length_singleton] at hc ⊢
      omega
    · rename_i hc
      simp only [List.length_append, List.length_singleton] at hc ⊢
      omega
  have hfold : ∀ (entries : List StoredMessage) (h : List StoredMessage),
      h.length ≤ 100 → (entries.foldl add_message h).length ≤ 100 := by
    intro entries
    induction entries with
    | nil => intro h hh; simpa using hh
    | cons e t ih =>
      intro h hh
      simp only [List.foldl_cons]
      exact ih _ (by rw [hmin]; omega)
  refine ⟨?_, hmin, ?_, fun entries => hfold entries [] (by simp)⟩
  · intro f h e
    cases f with
    | some err => simp [add_message_guarded]
    | none =>
      simp only [add_message_guarded]
      rw [hmin]
      omega
  · intro h e
    simp only [add_message]
    split
    · exact List.drop_suffix _ _
    · exact List.suffix_refl _

/-- C2 (code bug): `VectorStore` defines no `similarity_search` method,
so the attribute lookup in `process_message` raises and every call returns
the apology string instead of using retrieval results. -/
theorem c2_similarity_search_missing :
    vectorStoreMethods.contains "similarity_search" = false ∧
    (process_message true
      { llmInitialized := true
        genHttp := { ok := true, lines := [] }
        searchOutcome := .error
          "AttributeError: VectorStore object has no attribute similarity_search"
        persistFailure := none }
      [] "What are the main applications of GPU computing?").result =
      .ok apology := by
  exact ⟨by decide, rfl⟩

lemma string_join_cons (c : String) (l : List String) :
    String.join (c :: l) = c ++ String.join l := by
  apply String.ext
  simp [String.join_eq]

/-- The incremental text one stream line contributes when the loop does
not abort: nothing for empty, undecodable and falsy-content lines, the
extracted string otherwise. -/
def lineContribution : StreamLine → Option String
  | .empty => none
  | .undecodable => none
  | .decoded j =>
    match extractDeltaContent j with
    | .ok (some c) => some c
    | _ => none

/-- Whether a stream line makes the accumulation loop raise: exactly the
decoded lines whose content extraction fails with an exception the inner
handler does not catch. -/
def lineAborts : StreamLine → Bool
  | .decoded j =>
    match extractDeltaContent j with
    | .error _ => true
    | .ok _ => false
  | _ => false

lemma runStream_ok_of_no_abort (ls : List StreamLine) :
    ∀ acc : String, (∀ l ∈ ls, lineAborts l = false) →
      runStream ls acc =
        .ok (acc ++ String.join (ls.filterMap lineContribution)) := by
  induction ls with
  | nil =>
    intro acc _
    have hj : String.join ([] : List String) = "" := rfl
    simp [runStream, hj]
  | cons l rest ih =>
    intro acc hall
    have hl : lineAborts l = false := hall l (List.mem_cons_self l rest)
    have hrest : ∀ l' ∈ rest, lineAborts l' = false :=
      fun l' h => hall l' (List.mem_cons_of_mem l h)
    cases l with
    | empty =>
      simp only [runStream, List.filterMap_cons, lineContribution]
      exact ih acc hrest
    | undecodable =>
      simp only [runStream, List.filterMap_cons, lineContribution]
      exact ih acc hrest
    | decoded j =>
      cases hj : extractDeltaContent j with
      | error e =>
        rw [lineAborts, hj] at hl
        exact absurd hl (by simp)
      | ok c =>
        cases c with
        | none =>
          simp only [runStream, hj, List.filterMap_cons, lineContribution]
          exact ih acc hrest
        | some s =>
          simp only [runStream, hj, List.filterMap_cons, lineContribution]
          rw [ih (acc ++ s) hrest, string_join_cons, String.append_assoc]

lemma runStream_skip_undecodable (xs ys : List StreamLine) :
    ∀ acc : String,
      runStream (xs ++ StreamLine.undecodable :: ys) acc =
        runStream (xs ++ ys) acc := by
  induction xs with
  | nil => intro acc; simp [runStream]
  | cons x xs ih =>
    intro acc
    cases x with
    | empty => simp only [List.cons_append, runStream]; exact ih acc
    | undecodable => simp only [List.cons_append, runStream]; exact ih acc
    | decoded j =>
      cases hj : extractDeltaContent j with
      | error e => simp [List.cons_append, runStream, hj]
      | ok c =>
        cases c with
        | none => simp only [List.cons_append, runStream, hj]; exact ih acc
        | some s =>
          simp only [List.cons_append, runStream, hj]
          exact ih (acc ++ s)

lemma runStream_aborts (j : Json) (e : String)
    (hj : extractDeltaContent j = .error e) (ys : List StreamLine) :
    ∀ (xs : List StreamLine) (acc : String),
      ∃ e', runStream (xs ++ StreamLine.decoded j :: ys) acc =
        .error e' := by
  intro xs
  induction xs with
  | nil => intro acc; exact ⟨e, by simp [runStream, hj]⟩
  | cons x xs ih =>
    intro acc
    cases x with
    | empty => simpa only [List.cons_append, runStream] using ih acc
    | undecodable => simpa only [List.cons_append, runStream] using ih acc
    | decoded j' =>
      cases hj' : extractDeltaContent j' with
      | error e'' =>
        exact ⟨e'', by simp [List.cons_append, runStream, hj']⟩
      | ok c =>
        cases c with
        | none => simpa only [List.cons_append, runStream, hj'] using ih acc
        | some s =>
          simpa only [List.cons_append, runStream, hj'] using ih (acc ++ s)

/-- C7 counterexample: a stream of one well-formed fragment carrying the
content "A" followed by one fragment that decodes as JSON but has an
empty `choices` list.  The `[0]` access raises IndexError, which is not a
`JSONDecodeError`, so it escapes the inner handler: the whole response is
replaced by the apology string instead of the concatenation "A" of the
well-formed fragments' content — the same stream without the bad
fragment does yield "A". -/
theorem c7_counterexample_extraction_aborts :
    (streamResponseText
        [StreamLine.decoded (Json.obj [("choices", Json.arr
            [Json.obj [("delta", Json.obj [("content", Json.str "A")])]])]),
          StreamLine.decoded (Json.obj [("choices", Json.arr [])])] ==
      "A") = false ∧
    streamResponseText
        [StreamLine.decoded (Json.obj [("choices", Json.arr
            [Json.obj [("delta", Json.obj [("content", Json.str "A")])]])]),
          StreamLine.decoded (Json.obj [("choices", Json.arr [])])] =
      apology ∧
    streamResponseText
        [StreamLine.decoded (Json.obj [("choices", Json.arr
            [Json.obj [("delta", Json.obj [("content", Json.str "A")])]])])] =
      "A" := by
  exact ⟨by decide, by decide, by decide⟩

/-- C7 (amended): for every stream whose lines each are empty, fail JSON
decoding, or decode with a successful content extraction, a
successful-status generation returns the concatenation, in arrival order,
of the truthy string contents; a line failing JSON decoding is skipped
and never changes the result.  A line that decodes but whose extraction
raises, however, aborts the whole response: the outer handler returns the
apology string regardless of any content accumulated before or after
it. -/
theorem c7_amended_stream_semantics :
    (∀ ls : List StreamLine, (∀ l ∈ ls, lineAborts l = false) →
      (generate_response true { ok := true, lines := ls }).result =
        .ok (String.join (ls.filterMap lineContribution))) ∧
    (∀ xs ys : List StreamLine,
      streamResponseText (xs ++ StreamLine.undecodable :: ys) =
        streamResponseText (xs ++ ys)) ∧
    (∀ (xs ys : List StreamLine) (j : Json) (e : String),
      extractDeltaContent j = .error e →
      (generate_response true
        { ok := true, lines := xs ++ StreamLine.decoded j :: ys }).result =
        .ok apology) := by
  refine ⟨?_, ?_, ?_⟩
  · intro ls hall
    have h := runStream_ok_of_no_abort ls "" hall
    simp [generate_response, h]
  · intro xs ys
    simp [streamResponseText, runStream_skip_undecodable]
  · intro xs ys j e hj
    obtain ⟨e', he⟩ := runStream_aborts j e hj ys xs ""
    simp [generate_response, he]

/-- Witness for C7 (amended) on a concrete abort-free stream. -/
theorem c7_amended_stream_semantics_witness :
    (generate_response true
      { ok := true
        lines := [StreamLine.empty, StreamLine.undecodable,
          StreamLine.decoded (Json.obj [("choices", Json.arr
            [Json.obj [("delta", Json.obj [("content", Json.str "A")])]])])] }).result =
      .ok (String.join
        (([StreamLine.empty, StreamLine.undecodable,
          StreamLine.decoded (Json.obj [("choices", Json.arr
            [Json.obj [("delta", Json.obj [("content", Json.str "A")])]])])] :
          List StreamLine).filterMap lineContribution)) ∧
    String.join
        (([StreamLine.empty, StreamLine.undecodable,
          StreamLine.decoded (Json.obj [("choices", Json.arr
            [Json.obj [("delta", Json.obj [("content", Json.str "A")])]])])] :
          List StreamLine).filterMap lineContribution) = "A" :=
  ⟨c7_amended_stream_semantics.1
      [StreamLine.empty, StreamLine.undecodable,
        StreamLine.decoded (Json.obj [("choices", Json.arr
          [Json.obj [("delta", Json.obj [("content", Json.str "A")])]])])]
      (by decide),
    by decide⟩

/-- The user/assistant pair contributed by one recent entry
(src/main.py lines 107-112). -/
def turnPair (t : StoredMessage) : List PromptMessage :=
  [PromptMessage.mk "user" t.message, PromptMessage.mk "assistant" t.response]

lemma buildMessages_eq (s : String) (r : List StoredMessage)
    (res : List RetrievalResult) (m : String) :
    buildMessages s r res m =
      PromptMessage.mk "system" (systemContent s res) ::
        (r.flatMap turnPair ++ [PromptMessage.mk "user" m]) := by
  cases r with
  | nil => rfl
  | cons a t => rfl

lemma turnPairs_length (r : List StoredMessage) :
    (r.flatMap turnPair).length = 2 * r.length := by
  induction r with
  | nil => rfl
  | cons a t ih =>
    simp [List.flatMap_cons, turnPair, ih]
    omega

lemma turnPairs_getElem (r : List StoredMessage) :
    ∀ i : Nat,
      (r.flatMap turnPair)[2 * i]? =
        r[i]?.map (fun t => PromptMessage.mk "user" t.message) ∧
      (r.flatMap turnPair)[2 * i + 1]? =
        r[i]?.map (fun t => PromptMessage.mk "assistant" t.response) := by
  induction r with
  | nil => intro i; simp
  | cons a t ih =>
    intro i
    cases i with
    | zero => simp [List.flatMap_cons, turnPair]
    | succ j =>
      have hcons : (a :: t).flatMap turnPair =
          PromptMessage.mk "user" a.message ::
            (PromptMessage.mk "assistant" a.response :: t.flatMap turnPair) := by
        simp [List.flatMap_cons, turnPair]
      have e1 : 2 * (j + 1) = (2 * j + 1) + 1 := by omega
      have e2 : 2 * (j + 1) + 1 = ((2 * j + 1) + 1) + 1 := by omega
      constructor
      · rw [e1, hcons, List.getElem?_cons_succ, List.getElem?_cons_succ,
          List.getElem?_cons_succ]
        exact (ih j).1
      · rw [e2, hcons, List.getElem?_cons_succ, List.getElem?_cons_succ,
          List.getElem?_cons_succ]
        exact (ih j).2

/-- C6: for a context with `k` recent turns, the assembled prompt has
exactly `2k + 2` messages: first the system message embedding the rolling
summary and the space-join of the retrieved passage texts, then, for the
`i`-th recent turn, a user message with its input at position `2i + 1` and
an assistant message with its response at position `2i + 2`, and last a
user message carrying the new input. -/
theorem c6_prompt_structure :
    ∀ (summary : String) (recent : List StoredMessage)
      (results : List RetrievalResult) (msg : String),
      (buildMessages summary recent results msg).length =
        2 * recent.length + 2 ∧
      (buildMessages summary recent results msg).head? =
        some (PromptMessage.mk "system"
          ("You are a helpful assistant. \n                    Previous conversation summary: "
            ++ summary
            ++ "\n                    Relevant context: "
            ++ String.intercalate " " (results.map RetrievalResult.getText))) ∧
      (buildMessages summary recent results msg).getLast? =
        some (PromptMessage.mk "user" msg) ∧
      ∀ i : Nat, i < recent.length →
        (buildMessages summary recent results msg)[2 * i + 1]? =
          recent[i]?.map (fun t => PromptMessage.mk "user" t.message) ∧
        (buildMessages summary recent results msg)[2 * i + 2]? =
          recent[i]?.map (fun t => PromptMessage.mk "assistant" t.response) := by
  intro summary recent results msg
  rw [buildMessages_eq]
  refine ⟨?_, rfl, ?_, ?_⟩
  · simp only [List.length_cons, List.length_append, turnPairs_length,
      List.length_singleton, List.length_nil]
  · rw [← List.cons_append]
    exact List.getLast?_concat _
  · intro i hi
    constructor
    · rw [List.getElem?_cons_succ,
        List.getElem?_append_left (by rw [turnPairs_length]; omega)]
      exact (turnPairs_getElem recent i).1
    · have e : 2 * i + 2 = (2 * i + 1) + 1 := by omega
      rw [e, List.getElem?_cons_succ,
        List.getElem?_append_left (by rw [turnPairs_length]; omega)]
      exact (turnPairs_getElem recent i).2

/-- Witness for C6 at a concrete one-turn context. -/
theorem c6_prompt_structure_witness :
    0 < ([StoredMessage.mk "m" "r" [] false] : List StoredMessage).length ∧
    (buildMessages "S" [StoredMessage.mk "m" "r" [] false] [] "q")[2 * 0 + 1]? =
      ([StoredMessage.mk "m" "r" [] false] :
        List StoredMessage)[0]?.map
        (fun t => PromptMessage.mk "user" t.message) :=
  ⟨by decide,
    ((c6_prompt_structure "S" [StoredMessage.mk "m" "r" [] false] [] "q").2.2.2
      0 (by decide)).1⟩

set_option maxRecDepth 4000 in
/-- C1 counterexample: on the non-empty history `[{message := "hi",
response := "yo"}]`, the summary returned by `get_context` is its inline
f-string, not the value the Summary Cache (`get_summary`) computes for the
same history — here the remote summarizer answers `"XYZ"`, the cache is
empty, and the two summaries differ, so `get_context` does not compute
its summary via `get_summary`. -/
theorem c1_counterexample_summary_not_from_cache :
    ((get_context (.ok [StoredMessage.mk "hi" "yo" [] false])).summary ==
      (get_summary (fun _ => .ok "XYZ") (fun _ => 0) defaultSettings []
        [StoredMessage.mk "hi" "yo" [] false]).1) = false := by
  decide

/-- C1 (amended): for every non-empty history, `get_context` computes the
returned summary inline — the history length and the 30-character
truncations of the last two messages — without consulting the Summary
Cache; `get_summary` (the Summary Cache) exists separately: on a cache
miss it stores and returns `_generate_summary`, whose single remote
request carries the summarization-specific system instruction, the
history formatted as alternating "User:"/"Assistant:" lines, the low
summary temperature, and a 200-token output ceiling. -/
theorem c1_amended_inline_summary :
    (∀ (e : StoredMessage) (t : List StoredMessage),
      (get_context (.ok (e :: t))).summary =
        "Previous conversation included " ++ toString (e :: t).length ++
          " messages about: " ++
          String.intercalate ", "
            (((e :: t).drop ((e :: t).length - 2)).map
              (fun m => m.message.take 30 ++ "..."))) ∧
    (∀ (remote : SummaryRequest → Except String String)
      (keyFn : List StoredMessage → Int) (s : Settings)
      (msgs : List StoredMessage),
      (get_summary remote keyFn s [] msgs).1 =
        _generate_summary remote s msgs ∧
      (get_summary remote keyFn s [] msgs).2 =
        _update_cache s (keyFn msgs) (_generate_summary remote s msgs) [] ∧
      (summaryRequest s msgs).systemInstruction =
        "Create a brief, focused summary of the key points in this conversation." ∧
      (summaryRequest s msgs).userContent = _format_conversation msgs ∧
      (summaryRequest s msgs).temperature = s.SUMMARY_TEMPERATURE ∧
      (summaryRequest s msgs).max_tokens = 200) := by
  constructor
  · intro e t
    simp [get_context, inlineSummary]
  · intro remote keyFn s msgs
    exact ⟨rfl, rfl, rfl, rfl, rfl, rfl⟩

lemma contains_true_iff (l : List Int) (a : Int) :
    l.contains a = true ↔ a ∈ l := by
  simp [List.contains]

lemma contains_false_iff (l : List Int) (a : Int) :
    l.contains a = false ↔ a ∉ l := by
  simp [List.contains]

lemma cacheAssign_keys (k : Int) (v : String) (c : Cache) :
    List.map Prod.fst (cacheAssign k v c) =
      if (List.map Prod.fst c).contains k then List.map Prod.fst c
      else List.map Prod.fst c ++ [k] := by
  unfold cacheAssign
  by_cases h : (List.map Prod.fst c).contains k = true
  · rw [if_pos h, if_pos h, List.map_map]
    refine List.map_congr_left fun p _ => ?_
    by_cases hpk : p.1 = k <;> simp [hpk]
  · rw [if_neg h, if_neg h, List.map_append]
    rfl

lemma cacheAssign_nodup (k : Int) (v : String) (c : Cache)
    (h : (List.map Prod.fst c).Nodup) :
    (List.map Prod.fst (cacheAssign k v c)).Nodup := by
  rw [cacheAssign_keys]
  by_cases hc : (List.map Prod.fst c).contains k = true
  · rwa [if_pos hc]
  · rw [if_neg hc, List.nodup_append]
    refine ⟨h, List.nodup_singleton k, ?_⟩
    intro a ha hak
    rw [List.mem_singleton] at hak
    subst hak
    have hk : a ∉ List.map Prod.fst c :=
      (contains_false_iff _ _).mp (Bool.not_eq_true _ ▸ Bool.of_not_eq_true hc)
    exact hk ha

lemma evict_spec (T : Nat) (c1 : Cache) (r : Cache)
    (hnd : (List.map Prod.fst c1).Nodup) (hT : T ≤ c1.length)
    (hr : r = List.filter
      (fun e =>
        !((((List.map Prod.fst c1).mergeSort).take
            ((List.map Prod.fst c1).mergeSort.length - T)).contains e.1))
      c1) :
    r.length = T ∧
    ∀ p ∈ r, ∀ q ∈ c1,
      (List.map Prod.fst r).contains q.1 = false → q.1 < p.1 := by
  subst hr
  set keys := List.map Prod.fst c1 with hkeys
  set sk := keys.mergeSort with hsk
  set old := sk.take (sk.length - T) with hold
  set nw := sk.drop (sk.length - T) with hnw
  have hperm : sk.Perm keys := List.mergeSort_perm keys _
  have hsorted : List.Sorted (· ≤ ·) sk := List.sorted_mergeSort' keys
  have hsknd : sk.Nodup := hperm.nodup_iff.mpr hnd
  have hsklen : sk.length = c1.length := by
    rw [hsk, List.length_mergeSort, hkeys, List.length_map]
  have hsplit : sk = old ++ nw := (List.take_append_drop _ sk).symm
  have hnwlen : nw.length = T := by
    rw [hnw, List.length_drop]
    omega
  have hpw : ∀ x ∈ old, ∀ y ∈ nw, x ≤ y := by
    have hp := hsorted
    rw [hsplit] at hp
    exact fun x hx y hy => (List.pairwise_append.mp hp).2.2 x hx y hy
  have hdisj : ∀ x ∈ nw, x ∉ old := by
    have hn := hsknd
    rw [hsplit] at hn
    have hd := (List.nodup_append.mp hn).2.2
    intro x hx hxo
    exact hd hxo hx
  have hfilterkeys :
      List.map Prod.fst (List.filter (fun e => !(old.contains e.1)) c1) =
        List.filter (fun x => !(old.contains x)) keys := by
    rw [hkeys, List.filter_map]
    rfl
  have holdnil : List.filter (fun x => !(old.contains x)) old = [] := by
    rw [List.filter_eq_nil_iff]
    intro a ha
    simpa using ha
  have hnwself : List.filter (fun x => !(old.contains x)) nw = nw := by
    rw [List.filter_eq_self]
    intro a ha
    simpa using hdisj a ha
  have hlenr :
      (List.filter (fun e => !(old.contains e.1)) c1).length = T := by
    have h1 : (List.filter (fun e => !(old.contains e.1)) c1).length =
        (List.filter (fun x => !(old.contains x)) keys).length := by
      rw [← hfilterkeys, List.length_map]
    have h2 : (List.filter (fun x => !(old.contains x)) keys).length =
        (List.filter (fun x => !(old.contains x)) sk).length :=
      (hperm.symm.filter _).length_eq
    have h3 : List.filter (fun x => !(old.contains x)) sk = nw := by
      rw [hsplit, List.filter_append, holdnil, hnwself, List.nil_append]
    rw [h1, h2, h3, hnwlen]
  refine ⟨hlenr, ?_⟩
  intro p hp q hq hqc
  obtain ⟨hpc1, hppred⟩ := List.mem_filter.mp hp
  have hpold : p.1 ∉ old := by
    refine (contains_false_iff _ _).mp ?_
    simpa using hppred
  have hpkeys : p.1 ∈ keys := by
    rw [hkeys]
    exact List.mem_map_of_mem Prod.fst hpc1
  have hpsk : p.1 ∈ sk := hperm.mem_iff.mpr hpkeys
  have hpnw : p.1 ∈ nw := by
    rw [hsplit] at hpsk
    rcases List.mem_append.mp hpsk with hmem | hmem
    · exact absurd hmem hpold
    · exact hmem
  have hqold : q.1 ∈ old := by
    by_contra hqo
    have hqin : q ∈ List.filter (fun e => !(old.contains e.1)) c1 := by
      refine List.mem_filter.mpr ⟨hq, ?_⟩
      simpa using hqo
    have hqmem : q.1 ∈
        List.map Prod.fst (List.filter (fun e => !(old.contains e.1)) c1) :=
      List.mem_map_of_mem Prod.fst hqin
    exact ((contains_false_iff _ _).mp hqc) hqmem
  have hle : q.1 ≤ p.1 := hpw q.1 hqold p.1 hpnw
  have hne : q.1 ≠ p.1 := by
    intro he
    rw [he] at hqold
    exact hpold hqold
  exact lt_of_le_of_ne hle hne

/-- C4: starting from a cache within its bound, `_update_cache` leaves at
most `MAX_CACHE_ITEMS` entries; and whenever the insertion makes the size
exceed `MAX_CACHE_ITEMS`, eviction leaves exactly
`CACHE_CLEANUP_THRESHOLD` entries, every retained key being strictly
larger than every evicted key (smallest-keyed entries removed). -/
theorem c4_cache_eviction (s : Settings) (cache : Cache) (k : Int)
    (v : String) (hnd : (List.map Prod.fst cache).Nodup)
    (hlen : cache.length ≤ s.MAX_CACHE_ITEMS)
    (hts : s.CACHE_CLEANUP_THRESHOLD ≤ s.MAX_CACHE_ITEMS) :
    (_update_cache s k v cache).length ≤ s.MAX_CACHE_ITEMS ∧
    (s.MAX_CACHE_ITEMS < (cacheAssign k v cache).length →
      (_update_cache s k v cache).length = s.CACHE_CLEANUP_THRESHOLD ∧
      ∀ p ∈ _update_cache s k v cache,
        ∀ q ∈ cacheAssign k v cache,
          (List.map Prod.fst (_update_cache s k v cache)).contains q.1 =
            false →
          q.1 < p.1) := by
  have hrfl : _update_cache s k v cache =
      if (cacheAssign k v cache).length > s.MAX_CACHE_ITEMS then
        List.filter
          (fun e =>
            !((((List.map Prod.fst (cacheAssign k v cache)).mergeSort).take
                ((List.map Prod.fst (cacheAssign k v cache)).mergeSort.length -
                  s.CACHE_CLEANUP_THRESHOLD)).contains e.1))
          (cacheAssign k v cache)
      else cacheAssign k v cache := rfl
  by_cases hbig : (cacheAssign k v cache).length > s.MAX_CACHE_ITEMS
  · rw [hrfl, if_pos hbig]
    have hspec := evict_spec s.CACHE_CLEANUP_THRESHOLD (cacheAssign k v cache)
      _ (cacheAssign_nodup k v cache hnd) (by omega) rfl
    refine ⟨by rw [hspec.1]; exact hts, fun _ => hspec⟩
  · rw [hrfl, if_neg hbig]
    refine ⟨by omega, fun hcontra => absurd hcontra hbig⟩

/-- Witness for C4 at a concrete over-full cache with a two-entry bound. -/
theorem c4_cache_eviction_witness :
    ([((0 : Int), "a"), ((1 : Int), "b")] : Cache).length ≤
      (Settings.mk "m" 1 1 1 true 2 1).MAX_CACHE_ITEMS ∧
    (_update_cache (Settings.mk "m" 1 1 1 true 2 1) 2 "c"
        [((0 : Int), "a"), ((1 : Int), "b")]).length ≤
      (Settings.mk "m" 1 1 1 true 2 1).MAX_CACHE_ITEMS :=
  ⟨by decide,
    (c4_cache_eviction (Settings.mk "m" 1 1 1 true 2 1)
      [((0 : Int), "a"), ((1 : Int), "b")] 2 "c" (by decide) (by decide)
      (by decide)).1⟩

end ChatBot
